import Mathlib

/-!
Shallow embedding of `src/deepseek.py`, a small Flask server relaying chat
messages to a remote completion API and persisting a single API key in
`config.json` plus a system-prompt context in `contexto.txt`.

Modelling choices:
* Python's `str.strip()` is `pyStrip`, dropping whitespace characters from
  both ends of the character list.
* The config file is a `ConfigContent`: absent, unreadable (I/O error on
  open/read), unparsable JSON, or a parsed `Json` value.  `json.load`
  failures and `.get`/`.strip()` attribute errors are all caught by the
  `except Exception` in `carregar_api_key` and yield `""`.
* The context file read is a `ReadResult`: content, `FileNotFoundError`, or
  another I/O error; only the second is caught by `carregar_contexto`, so
  the embedding of fallible context code returns `Except String _`.
* The remote completion API is an oracle `CompletionRequest → RemoteResult`;
  handlers record the list of remote calls they issue.  Client construction
  (`OpenAI(...)`) may raise; the oracle `constructOk` says whether it does.
* HTTP responses are a status code plus a flat JSON object body (every body
  produced by this program is a flat object of strings and booleans);
  `jsonify` without an explicit status is status 200.
-/

namespace Deepseek

/-- Whitespace test used by `pyStrip`, matching the characters `str.strip()`
removes for the ASCII range. -/
def isSpaceChar (c : Char) : Bool :=
  c = ' ' || c = '\t' || c = '\n' || c = '\r'

/-- Strip whitespace from both ends of a character list. -/
def stripChars (l : List Char) : List Char :=
  ((l.dropWhile isSpaceChar).reverse.dropWhile isSpaceChar).reverse

/-- Embedding of Python `str.strip()` (no arguments). -/
def pyStrip (s : String) : String :=
  ⟨stripChars s.data⟩

/-- Embedding of Python `s.startswith(pre)`. -/
def pyStartsWith (s pre : String) : Bool :=
  pre.data.isPrefixOf s.data

/-- JSON values, as produced by Python `json.load`. -/
inductive Json where
  | null : Json
  | bool (b : Bool) : Json
  | num (n : Int) : Json
  | str (s : String) : Json
  | arr (elems : List Json) : Json
  | obj (fields : List (String × Json)) : Json

/-- Field lookup in a parsed JSON object (Python `dict.get`). -/
def lookupField (k : String) : List (String × Json) → Option Json
  | [] => none
  | (k', v) :: rest => if k' = k then some v else lookupField k rest

/-- State of the configuration file `config.json` as seen by a reader. -/
inductive ConfigContent where
  | absent : ConfigContent
  | unreadable : ConfigContent
  | invalidJson : ConfigContent
  | json (j : Json) : ConfigContent

/-- Embedding of `carregar_api_key`: returns the stored `api_key` stripped,
and `""` on a missing file, read failure, parse failure, missing field,
non-object JSON, or non-string field value (the last four raise inside the
`try` and are caught by `except Exception`). -/
def carregar_api_key (cfg : ConfigContent) : String :=
  match cfg with
  | .absent => ""
  | .unreadable => ""
  | .invalidJson => ""
  | .json (.obj fields) =>
    match lookupField "api_key" fields with
    | some (.str s) => pyStrip s
    | some _ => ""
    | none => ""
  | .json _ => ""

/-- Embedding of `salvar_api_key`: overwrites the config file with
`{"api_key": api_key}`; `writeOk` is the oracle for I/O success.  Returns
the Python boolean result together with the new file state. -/
def salvar_api_key (api_key : String) (writeOk : Bool) (cfg : ConfigContent) :
    Bool × ConfigContent :=
  if writeOk then
    (true, .json (.obj [("api_key", Json.str api_key)]))
  else
    (false, cfg)

/-- Result of attempting to read the context file. -/
inductive ReadResult where
  | ok (content : String) : ReadResult
  | fileNotFound : ReadResult
  | ioError (msg : String) : ReadResult

/-- Embedding of `carregar_contexto`: trimmed file content; the fixed
fallback on `FileNotFoundError`; any other exception propagates
(`Except.error`). -/
def carregar_contexto (file : ReadResult) : Except String String :=
  match file with
  | .ok content => .ok (pyStrip content)
  | .fileNotFound => .ok "Você é um assistente útil."
  | .ioError msg => .error msg

/-- Embedding of `criar_cliente`: loads the key, returns `none` for an empty
key without attempting construction; otherwise attempts to construct the
client (`constructOk` is the oracle for `OpenAI(...)` not raising).  The
second component records whether construction was attempted. -/
def criar_cliente (cfg : ConfigContent) (constructOk : Bool) :
    Option String × Bool :=
  let api_key := carregar_api_key cfg
  if api_key = "" then (none, false)
  else if constructOk then (some api_key, true)
  else (none, true)

/-- A value of a flat JSON response body. -/
inductive JVal where
  | str (v : String) : JVal
  | bool (v : Bool) : JVal
deriving DecidableEq

/-- An HTTP response: status code and flat JSON object body. -/
structure HttpResponse where
  status : Nat
  body : List (String × JVal)
deriving DecidableEq

/-- A request to the remote completion API
(`client.chat.completions.create`). -/
structure CompletionRequest where
  model : String
  messages : List (String × String)
  max_tokens : Nat
deriving DecidableEq

/-- Outcome of a remote completion call: the contents of the choices, or an
exception with its text. -/
inductive RemoteResult where
  | success (choices : List String) : RemoteResult
  | error (msg : String) : RemoteResult
deriving DecidableEq

/-- Embedding of the `check_api_key` handler. -/
def check_api_key (cfg : ConfigContent) : HttpResponse :=
  let api_key := carregar_api_key cfg
  { status := 200,
    body := [("configured", JVal.bool (!(api_key = ""))),
             ("message", JVal.str (if api_key = "" then "API Key não configurada"
                                   else "API Key configurada"))] }

/-- Outcome of the `save_api_key` handler: HTTP response, the remote calls
issued, and the resulting config-file state. -/
structure SaveOutcome where
  response : HttpResponse
  remoteCalls : List CompletionRequest
  config : ConfigContent

/-- The validation request `save_api_key` sends to the remote API. -/
def testRequest : CompletionRequest :=
  { model := "deepseek-chat", messages := [("user", "test")], max_tokens := 10 }

/-- Embedding of the `save_api_key` handler.  `body_key` is the `api_key`
field of the request JSON (`none` when absent), `remote` the completion-API
oracle, `writeOk` the file-write oracle, `cfg` the current config file. -/
def save_api_key (body_key : Option String)
    (remote : CompletionRequest → RemoteResult) (writeOk : Bool)
    (cfg : ConfigContent) : SaveOutcome :=
  let api_key := pyStrip (body_key.getD "")
  if api_key = "" then
    { response := { status := 400, body := [("error", JVal.str "API Key não fornecida")] },
      remoteCalls := [], config := cfg }
  else if !(pyStartsWith api_key "sk-") then
    { response := { status := 400, body := [("error", JVal.str "Formato de API Key inválido")] },
      remoteCalls := [], config := cfg }
  else
    match remote testRequest with
    | .error e =>
      { response := { status := 400,
                      body := [("error", JVal.str ("API Key inválida: " ++ e))] },
        remoteCalls := [testRequest], config := cfg }
    | .success _ =>
      match salvar_api_key api_key writeOk cfg with
      | (true, newCfg) =>
        { response := { status := 200,
                        body := [("success", JVal.bool true),
                                 ("message", JVal.str "API Key salva com sucesso")] },
          remoteCalls := [testRequest], config := newCfg }
      | (false, newCfg) =>
        { response := { status := 500, body := [("error", JVal.str "Erro ao salvar API Key")] },
          remoteCalls := [testRequest], config := newCfg }

/-- Outcome of the `chat` handler: HTTP response, whether the `OpenAI`
constructor was invoked, and the remote calls issued. -/
structure ChatOutcome where
  response : HttpResponse
  clientConstructed : Bool
  remoteCalls : List CompletionRequest

/-- The chat relay request for context `contexto` and user text `t`. -/
def chatRequest (contexto t : String) : CompletionRequest :=
  { model := "deepseek-chat",
    messages := [("system", contexto), ("user", t)],
    max_tokens := 2000 }

/-- Embedding of the `chat` handler.  `message` is the `message` field of
the request JSON (`none` when absent, defaulted to `""` by `data.get`);
`contexto` is the in-memory context global. -/
def chat (cfg : ConfigContent) (constructOk : Bool) (contexto : String)
    (message : Option String) (remote : CompletionRequest → RemoteResult) :
    ChatOutcome :=
  let c := criar_cliente cfg constructOk
  match c.1 with
  | none =>
    { response := { status := 401,
                    body := [("error", JVal.str "API Key não configurada. Por favor, configure primeiro.")] },
      clientConstructed := c.2, remoteCalls := [] }
  | some _ =>
    let user_text := message.getD ""
    if user_text = "" then
      { response := { status := 400, body := [("error", JVal.str "Mensagem vazia")] },
        clientConstructed := c.2, remoteCalls := [] }
    else
      match remote (chatRequest contexto user_text) with
      | .success (c0 :: _) =>
        { response := { status := 200, body := [("reply", JVal.str c0)] },
          clientConstructed := c.2, remoteCalls := [chatRequest contexto user_text] }
      | .success [] =>
        { response := { status := 500,
                        body := [("error", JVal.str "list index out of range")] },
          clientConstructed := c.2, remoteCalls := [chatRequest contexto user_text] }
      | .error e =>
        { response := { status := 500, body := [("error", JVal.str e)] },
          clientConstructed := c.2, remoteCalls := [chatRequest contexto user_text] }

/-- Embedding of the `reset_context` handler: reloads the context global
from the fixed path; an uncaught read error propagates out of the handler.
On success returns the response together with the new context value. -/
def reset_context (ctxFile : ReadResult) : Except String (HttpResponse × String) :=
  match carregar_contexto ctxFile with
  | .ok ctx =>
    .ok ({ status := 200,
           body := [("status", JVal.str "success"),
                    ("message", JVal.str "Contexto reiniciado")] }, ctx)
  | .error e => .error e

/-- Embedding of the `delete_api_key` handler: removes the config file when
it exists; `removeErr` is the oracle for `os.remove` (`some e` means it
raised with text `e`).  When the file is absent no removal is attempted. -/
def delete_api_key (removeErr : Option String) (cfg : ConfigContent) :
    HttpResponse × ConfigContent :=
  match cfg with
  | .absent =>
    ({ status := 200,
       body := [("success", JVal.bool true),
                ("message", JVal.str "API Key removida com sucesso")] }, .absent)
  | _ =>
    match removeErr with
    | none =>
      ({ status := 200,
         body := [("success", JVal.bool true),
                  ("message", JVal.str "API Key removida com sucesso")] }, .absent)
    | some e => ({ status := 500, body := [("error", JVal.str e)] }, cfg)

/-! ### Sample inputs used by witnesses and counterexamples -/

/-- A remote-API oracle that always succeeds with the single choice `"ok"`. -/
def remoteOk : CompletionRequest → RemoteResult := fun _ => RemoteResult.success ["ok"]

/-- A remote-API oracle that always raises with text `"boom"`. -/
def remoteBoom : CompletionRequest → RemoteResult := fun _ => RemoteResult.error "boom"

/-- A config file holding the key `"sk-test"`. -/
def sampleCfg : ConfigContent := ConfigContent.json (Json.obj [("api_key", Json.str "sk-test")])

/-! ### Helper lemmas -/

theorem stripChars_eq_rdropWhile (l : List Char) :
    stripChars l = List.rdropWhile isSpaceChar (l.dropWhile isSpaceChar) := rfl

theorem dropWhile_head_false (p : Char → Bool) (l : List Char) (a : Char)
    (as : List Char) (h : List.dropWhile p l = a :: as) : p a = false := by
  induction l with
  | nil => simp [List.dropWhile] at h
  | cons x xs ih =>
    rw [List.dropWhile_cons] at h
    by_cases hx : p x = true
    · rw [if_pos hx] at h
      exact ih h
    · rw [if_neg hx] at h
      cases h
      exact Bool.not_eq_true _ |>.mp hx

theorem stripChars_idempotent (l : List Char) :
    stripChars (stripChars l) = stripChars l := by
  have hA : List.dropWhile isSpaceChar (stripChars l) = stripChars l := by
    cases hs : stripChars l with
    | nil => rfl
    | cons a as =>
      have hpre : stripChars l <+: List.dropWhile isSpaceChar l := by
        rw [stripChars_eq_rdropWhile]
        exact List.rdropWhile_prefix _ _
      rw [hs] at hpre
      obtain ⟨t, ht⟩ := hpre
      have ha : isSpaceChar a = false :=
        dropWhile_head_false isSpaceChar l a (as ++ t) ht.symm
      simp [List.dropWhile_cons, ha]
  rw [stripChars_eq_rdropWhile, hA, stripChars_eq_rdropWhile]
  exact List.rdropWhile_idempotent _ _

theorem pyStrip_idempotent (s : String) : pyStrip (pyStrip s) = pyStrip s :=
  congrArg String.mk (stripChars_idempotent s.data)

/-! ### Claim theorems -/

/-- Claim C5: the credential-store load never raises (it is a total function of the
file state) and returns `""` on a missing file, an unreadable file, unparsable
JSON, or parsed JSON lacking the `api_key` field; when the field holds a string
it returns that string stripped of surrounding whitespace. -/
theorem carregar_api_key_total_spec :
    carregar_api_key ConfigContent.absent = "" ∧
    carregar_api_key ConfigContent.unreadable = "" ∧
    carregar_api_key ConfigContent.invalidJson = "" ∧
    (∀ fields, lookupField "api_key" fields = none →
      carregar_api_key (ConfigContent.json (Json.obj fields)) = "") ∧
    (∀ fields s, lookupField "api_key" fields = some (Json.str s) →
      carregar_api_key (ConfigContent.json (Json.obj fields)) = pyStrip s) := by
  refine ⟨rfl, rfl, rfl, ?_, ?_⟩
  · intro fields h
    simp [carregar_api_key, h]
  · intro fields s h
    simp [carregar_api_key, h]

/-- Claim C5 witness: the load cases evaluated at concrete file states. -/
theorem carregar_api_key_total_spec_witness :
    carregar_api_key (ConfigContent.json (Json.obj [("other", Json.num 3)])) = "" ∧
    carregar_api_key (ConfigContent.json (Json.obj [("api_key", Json.str " sk-a ")])) = "sk-a" := by
  constructor
  · exact carregar_api_key_total_spec.2.2.2.1 [("other", Json.num 3)] rfl
  · have h := carregar_api_key_total_spec.2.2.2.2
      [("api_key", Json.str " sk-a ")] " sk-a " rfl
    rw [h]
    decide

/-- Claim C6: the context loader returns the file content stripped of surrounding
whitespace when the read succeeds, returns the fixed fallback string exactly in
the missing-file case, and lets any other read failure propagate to the caller
uncaught. -/
theorem carregar_contexto_spec :
    (∀ content, carregar_contexto (ReadResult.ok content) = Except.ok (pyStrip content)) ∧
    carregar_contexto ReadResult.fileNotFound = Except.ok "Você é um assistente útil." ∧
    (∀ e, carregar_contexto (ReadResult.ioError e) = Except.error e) :=
  ⟨fun _ => rfl, rfl, fun _ => rfl⟩

/-- Claim C7 counterexample: a context-file read failure other than a missing file
(here a permission error) makes the reset-context handler propagate the error
instead of returning the success response, so the handler does not always
succeed. -/
theorem reset_context_not_always_success :
    reset_context (ReadResult.ioError "Permission denied") =
      Except.error "Permission denied" := rfl

/-- Claim C7 (amended): the reset-context handler takes no input and reloads the
in-memory context; whenever the context-file read does not raise a
non-missing-file error, it returns the fixed status/message success response
(the handler itself has no error responses). -/
theorem reset_context_success (f : ReadResult) (ctx : String)
    (h : carregar_contexto f = Except.ok ctx) :
    reset_context f =
      Except.ok ({ status := 200,
                   body := [("status", JVal.str "success"),
                            ("message", JVal.str "Contexto reiniciado")] }, ctx) := by
  unfold reset_context
  rw [h]

/-- Claim C7 witness: reset on a missing context file succeeds with the fallback
context. -/
theorem reset_context_success_witness :
    reset_context ReadResult.fileNotFound =
      Except.ok ({ status := 200,
                   body := [("status", JVal.str "success"),
                            ("message", JVal.str "Contexto reiniciado")] },
                 "Você é um assistente útil.") :=
  reset_context_success ReadResult.fileNotFound "Você é um assistente útil." rfl

/-- Claim C9: deleting the credential while the file is already absent is a
success no-op (HTTP 200), and running delete twice in a row gives the same
response and final file state as running it once, for any `os.remove` outcome. -/
theorem delete_api_key_idempotent (removeErr : Option String) (cfg : ConfigContent) :
    delete_api_key removeErr ConfigContent.absent =
      ({ status := 200,
         body := [("success", JVal.bool true),
                  ("message", JVal.str "API Key removida com sucesso")] },
       ConfigContent.absent) ∧
    delete_api_key removeErr (delete_api_key removeErr cfg).2 =
      delete_api_key removeErr cfg := by
  constructor
  · cases removeErr <;> rfl
  · cases cfg <;> cases removeErr <;> rfl

/-- Claim C10: storing a key through the credential store writes it verbatim as
the `api_key` field, and a subsequent load returns it stripped of surrounding
whitespace, so surrounding whitespace in a persisted key is invisible to every
reader of the store. -/
theorem salvar_then_carregar (key : String) (cfg : ConfigContent) :
    (salvar_api_key key true cfg).2 =
      ConfigContent.json (Json.obj [("api_key", Json.str key)]) ∧
    carregar_api_key (salvar_api_key key true cfg).2 = pyStrip key := by
  constructor
  · rfl
  · simp [salvar_api_key, carregar_api_key, lookupField]

/-- Claim C1 counterexample: with a key configured, the whitespace-only chat
message `" "` is not rejected — the handler constructs the completion client,
issues the remote call, and (here) returns status 200 — contradicting the claim
that every empty-or-whitespace-only message yields HTTP 400 with no client
construction and no remote call. -/
theorem chat_whitespace_not_rejected :
    (chat sampleCfg true "ctx" (some " ") remoteOk).response.status = 200 ∧
    (chat sampleCfg true "ctx" (some " ") remoteOk).clientConstructed = true ∧
    (chat sampleCfg true "ctx" (some " ") remoteOk).remoteCalls =
      [chatRequest "ctx" " "] := by
  refine ⟨?_, ?_, ?_⟩ <;> decide

/-- Claim C1 (amended): with a key configured and the client constructed, a chat
request whose message is the empty string (or absent) returns HTTP 400
"Mensagem vazia" without issuing any remote call; the completion client is
however constructed before this check, and whitespace-only non-empty messages
are not rejected. -/
theorem chat_empty_message_400 (cfg : ConfigContent) (contexto : String)
    (message : Option String) (remote : CompletionRequest → RemoteResult)
    (hkey : carregar_api_key cfg ≠ "") (hmsg : message.getD "" = "") :
    chat cfg true contexto message remote =
      { response := { status := 400, body := [("error", JVal.str "Mensagem vazia")] },
        clientConstructed := true, remoteCalls := [] } := by
  unfold chat criar_cliente
  simp [hkey, hmsg]

/-- Claim C1 witness: the empty-message case evaluated at a concrete configured
state. -/
theorem chat_empty_message_400_witness :
    carregar_api_key sampleCfg ≠ "" ∧
    chat sampleCfg true "ctx" (some "") remoteOk =
      { response := { status := 400, body := [("error", JVal.str "Mensagem vazia")] },
        clientConstructed := true, remoteCalls := [] } :=
  ⟨by decide, chat_empty_message_400 sampleCfg "ctx" (some "") remoteOk (by decide) rfl⟩

/-- Claim C2: save-credential validation happens in order and short-circuits — a
key that is empty after stripping yields 400 "API Key não fornecida" with no
remote call; a non-empty stripped key not starting with "sk-" yields 400
"Formato de API Key inválido" with no remote call; and a remote call is issued
exactly when the stripped key passes both checks. -/
theorem save_api_key_validation_order (body_key : Option String)
    (remote : CompletionRequest → RemoteResult) (writeOk : Bool)
    (cfg : ConfigContent) :
    (pyStrip (body_key.getD "") = "" →
      save_api_key body_key remote writeOk cfg =
        { response := { status := 400,
                        body := [("error", JVal.str "API Key não fornecida")] },
          remoteCalls := [], config := cfg }) ∧
    (pyStrip (body_key.getD "") ≠ "" →
      pyStartsWith (pyStrip (body_key.getD "")) "sk-" = false →
      save_api_key body_key remote writeOk cfg =
        { response := { status := 400,
                        body := [("error", JVal.str "Formato de API Key inválido")] },
          remoteCalls := [], config := cfg }) ∧
    ((save_api_key body_key remote writeOk cfg).remoteCalls ≠ [] ↔
      (pyStrip (body_key.getD "") ≠ "" ∧
       pyStartsWith (pyStrip (body_key.getD "")) "sk-" = true)) := by
  refine ⟨?_, ?_, ?_⟩
  · intro h
    unfold save_api_key
    simp [h]
  · intro h1 h2
    unfold save_api_key
    simp [h1, h2]
  · unfold save_api_key
    by_cases h1 : pyStrip (body_key.getD "") = ""
    · simp [h1]
    · by_cases h2 : pyStartsWith (pyStrip (body_key.getD "")) "sk-" = true
      · cases hres : remote testRequest with
        | error e => simp [h1, h2, hres]
        | success ch =>
          cases writeOk <;> simp [h1, h2, hres, salvar_api_key]
      · simp [h1, h2, Bool.not_eq_true _ |>.mp h2]

/-- Claim C2 witness: the three validation cases at concrete inputs — a
whitespace-only key, a key without the "sk-" prefix, and a well-formed key. -/
theorem save_api_key_validation_order_witness :
    save_api_key (some "   ") remoteOk true ConfigContent.absent =
      { response := { status := 400,
                      body := [("error", JVal.str "API Key não fornecida")] },
        remoteCalls := [], config := ConfigContent.absent } ∧
    save_api_key (some "abc") remoteOk true ConfigContent.absent =
      { response := { status := 400,
                      body := [("error", JVal.str "Formato de API Key inválido")] },
        remoteCalls := [], config := ConfigContent.absent } ∧
    (save_api_key (some "sk-test") remoteOk true ConfigContent.absent).remoteCalls ≠ [] := by
  refine ⟨?_, ?_, ?_⟩
  · exact (save_api_key_validation_order (some "   ") remoteOk true
      ConfigContent.absent).1 (by decide)
  · exact (save_api_key_validation_order (some "abc") remoteOk true
      ConfigContent.absent).2.1 (by decide) (by decide)
  · exact (save_api_key_validation_order (some "sk-test") remoteOk true
      ConfigContent.absent).2.2.mpr ⟨by decide, by decide⟩

/-- Claim C3: for a key passing both local checks, save-credential issues exactly
the minimal validation call (model "deepseek-chat", the single user prompt
"test", 10-token cap); a remote exception yields 400 with the error text
embedded after "API Key inválida: " and the key is not persisted; on remote
success the key is persisted via the credential store exactly when the write
succeeds, and a write failure yields 500 with nothing persisted. -/
theorem save_api_key_remote_validation (body_key : Option String)
    (remote : CompletionRequest → RemoteResult) (writeOk : Bool)
    (cfg : ConfigContent)
    (h1 : pyStrip (body_key.getD "") ≠ "")
    (h2 : pyStartsWith (pyStrip (body_key.getD "")) "sk-" = true) :
    (save_api_key body_key remote writeOk cfg).remoteCalls = [testRequest] ∧
    testRequest = { model := "deepseek-chat", messages := [("user", "test")],
                    max_tokens := 10 } ∧
    (∀ e, remote testRequest = RemoteResult.error e →
      save_api_key body_key remote writeOk cfg =
        { response := { status := 400,
                        body := [("error", JVal.str ("API Key inválida: " ++ e))] },
          remoteCalls := [testRequest], config := cfg }) ∧
    (∀ ch, remote testRequest = RemoteResult.success ch → writeOk = true →
      save_api_key body_key remote writeOk cfg =
        { response := { status := 200,
                        body := [("success", JVal.bool true),
                                 ("message", JVal.str "API Key salva com sucesso")] },
          remoteCalls := [testRequest],
          config := ConfigContent.json
            (Json.obj [("api_key", Json.str (pyStrip (body_key.getD "")))]) }) ∧
    (∀ ch, remote testRequest = RemoteResult.success ch → writeOk = false →
      save_api_key body_key remote writeOk cfg =
        { response := { status := 500,
                        body := [("error", JVal.str "Erro ao salvar API Key")] },
          remoteCalls := [testRequest], config := cfg }) := by
  refine ⟨?_, rfl, ?_, ?_, ?_⟩
  · unfold save_api_key
    cases hres : remote testRequest with
    | error e => simp [h1, h2, hres]
    | success ch => cases writeOk <;> simp [h1, h2, hres, salvar_api_key]
  · intro e hres
    unfold save_api_key
    simp [h1, h2, hres]
  · intro ch hres hw
    subst hw
    unfold save_api_key
    simp [h1, h2, hres, salvar_api_key]
  · intro ch hres hw
    subst hw
    unfold save_api_key
    simp [h1, h2, hres, salvar_api_key]

/-- Claim C3 witness: the validation call and both remote outcomes at the
concrete key "sk-test". -/
theorem save_api_key_remote_validation_witness :
    (save_api_key (some "sk-test") remoteBoom true ConfigContent.absent) =
      { response := { status := 400,
                      body := [("error", JVal.str "API Key inválida: boom")] },
        remoteCalls := [testRequest], config := ConfigContent.absent } ∧
    (save_api_key (some "sk-test") remoteOk true ConfigContent.absent) =
      { response := { status := 200,
                      body := [("success", JVal.bool true),
                               ("message", JVal.str "API Key salva com sucesso")] },
        remoteCalls := [testRequest],
        config := ConfigContent.json (Json.obj [("api_key", Json.str "sk-test")]) } := by
  constructor
  · exact (save_api_key_remote_validation (some "sk-test") remoteBoom true
      ConfigContent.absent (by decide) (by decide)).2.2.1 "boom" rfl
  · have h := (save_api_key_remote_validation (some "sk-test") remoteOk true
      ConfigContent.absent (by decide) (by decide)).2.2.2.1 ["ok"] rfl rfl
    rw [h]
    simp
    decide

/-- Claim C4: with a key configured, the client constructed, and a non-empty
message, the chat handler issues exactly one remote call carrying two messages —
the system role set to the in-memory context and the user role set to the
request message — with model "deepseek-chat" and a 2000-token cap; on success it
returns `{reply: <content of the first choice>}` and a remote exception yields
500 with the error text. -/
theorem chat_relay (cfg : ConfigContent) (contexto msg : String)
    (remote : CompletionRequest → RemoteResult)
    (hkey : carregar_api_key cfg ≠ "") (hmsg : msg ≠ "") :
    (chat cfg true contexto (some msg) remote).remoteCalls =
      [chatRequest contexto msg] ∧
    chatRequest contexto msg =
      { model := "deepseek-chat",
        messages := [("system", contexto), ("user", msg)],
        max_tokens := 2000 } ∧
    (∀ c rest, remote (chatRequest contexto msg) = RemoteResult.success (c :: rest) →
      (chat cfg true contexto (some msg) remote).response =
        { status := 200, body := [("reply", JVal.str c)] }) ∧
    (∀ e, remote (chatRequest contexto msg) = RemoteResult.error e →
      (chat cfg true contexto (some msg) remote).response =
        { status := 500, body := [("error", JVal.str e)] }) := by
  refine ⟨?_, rfl, ?_, ?_⟩
  · unfold chat criar_cliente
    cases hres : remote (chatRequest contexto msg) with
    | error e => simp [hkey, hmsg, hres]
    | success ch => cases ch <;> simp [hkey, hmsg, hres]
  · intro c rest hres
    unfold chat criar_cliente
    simp [hkey, hmsg, hres]
  · intro e hres
    unfold chat criar_cliente
    simp [hkey, hmsg, hres]

/-- Claim C4 witness: the relay evaluated at a configured key, context "ctx" and
message "hi", for a successful and a failing remote call. -/
theorem chat_relay_witness :
    (chat sampleCfg true "ctx" (some "hi") remoteOk).remoteCalls =
      [chatRequest "ctx" "hi"] ∧
    (chat sampleCfg true "ctx" (some "hi") remoteOk).response =
      { status := 200, body := [("reply", JVal.str "ok")] } ∧
    (chat sampleCfg true "ctx" (some "hi") remoteBoom).response =
      { status := 500, body := [("error", JVal.str "boom")] } := by
  refine ⟨?_, ?_, ?_⟩
  · exact (chat_relay sampleCfg "ctx" "hi" remoteOk (by decide) (by decide)).1
  · exact (chat_relay sampleCfg "ctx" "hi" remoteOk (by decide) (by decide)).2.2.1
      "ok" [] rfl
  · exact (chat_relay sampleCfg "ctx" "hi" remoteBoom (by decide) (by decide)).2.2.2
      "boom" rfl

/-- Claim C8: after a successful save of a valid key (stripped key non-empty,
"sk-" prefix, remote validation succeeding), check-credential reports
`configured: true`; after a subsequent delete-credential, check-credential
reports `configured: false`. -/
theorem credential_roundtrip (cfg : ConfigContent) (key : String)
    (remote : CompletionRequest → RemoteResult) (ch : List String)
    (h1 : pyStrip key ≠ "")
    (h2 : pyStartsWith (pyStrip key) "sk-" = true)
    (hr : remote testRequest = RemoteResult.success ch) :
    (save_api_key (some key) remote true cfg).response.status = 200 ∧
    (check_api_key (save_api_key (some key) remote true cfg).config).body =
      [("configured", JVal.bool true), ("message", JVal.str "API Key configurada")] ∧
    (check_api_key (delete_api_key none
        (save_api_key (some key) remote true cfg).config).2).body =
      [("configured", JVal.bool false), ("message", JVal.str "API Key não configurada")] := by
  have h1' : pyStrip ((some key).getD "") ≠ "" := h1
  have h2' : pyStartsWith (pyStrip ((some key).getD "")) "sk-" = true := h2
  have hsave := (save_api_key_remote_validation (some key) remote true cfg
    h1' h2').2.2.2.1 ch hr rfl
  simp only [Option.getD_some] at hsave
  have hload : carregar_api_key
      (ConfigContent.json (Json.obj [("api_key", Json.str (pyStrip key))])) =
      pyStrip key := by
    simp [carregar_api_key, lookupField, pyStrip_idempotent]
  refine ⟨?_, ?_, ?_⟩
  · rw [hsave]
  · rw [hsave]
    simp only [check_api_key]
    rw [hload]
    simp [h1]
  · rw [hsave]
    simp only [delete_api_key]
    rfl

/-- Claim C8 witness: the round-trip at the concrete key "sk-test". -/
theorem credential_roundtrip_witness :
    (save_api_key (some "sk-test") remoteOk true ConfigContent.absent).response.status = 200 ∧
    (check_api_key (save_api_key (some "sk-test") remoteOk true
        ConfigContent.absent).config).body =
      [("configured", JVal.bool true), ("message", JVal.str "API Key configurada")] ∧
    (check_api_key (delete_api_key none
        (save_api_key (some "sk-test") remoteOk true ConfigContent.absent).config).2).body =
      [("configured", JVal.bool false), ("message", JVal.str "API Key não configurada")] :=
  credential_roundtrip ConfigContent.absent "sk-test" remoteOk ["ok"]
    (by decide) (by decide) rfl

end Deepseek
